import Mathlib

/-!
Verification of the linear RAG pipeline declared in `src/day1/main.py`.

The script wires five haystack components (fetcher, converter, splitter,
reranker, prompt builder + generator) into a strictly linear pipeline and
prints the first generated reply.  The component implementations live in the
haystack library, outside this repository's sources; where a claim depends on
their behaviour, the component is modelled from the specification's contract
for it (each such definition says so in its doc comment).  The pipeline
wiring, the template text, the split length, the environment-variable names,
the hardcoded generation endpoint and the final indexing step are taken
directly from `src/day1/main.py`.
-/

namespace AocHaystack

/-! ## Data model (spec section 3) -/

/-- A Document: normalized plain text, represented by its sentence list, plus a
metadata mapping carrying at least the key `url`. -/
structure Document where
  content : List String
  meta : List (String × String)
  deriving DecidableEq

/-- A Chunk: a contiguous subsequence of a Document's sentences plus the parent
Document's metadata. -/
structure Chunk where
  content : List String
  meta : List (String × String)
  deriving DecidableEq

/-! ## Splitter -/

/-- The split length the script passes to the splitter
(`DocumentSplitter(split_by="sentence", split_length=10)` in `src/day1/main.py`). -/
def splitLength : Nat := 10

/-- Modelled from the spec: the sentence-grouping core of the haystack
`DocumentSplitter` (spec section 4.4) — group a list into consecutive blocks of
`L` elements, the last block possibly shorter. -/
def chunksOf {α : Type _} (L : Nat) : List α → List (List α)
  | [] => []
  | x :: xs => (x :: xs.take (L - 1)) :: chunksOf L (xs.drop (L - 1))
termination_by xs => xs.length
decreasing_by simp [List.length_drop]; omega

/-- Modelled from the spec: haystack's `DocumentSplitter` (spec section 4.4) —
segment a Document into Chunks of `L` sentences each, preserving order and the
parent metadata on every chunk. -/
def documentSplitter (L : Nat) (d : Document) : List Chunk :=
  (chunksOf L d.content).map fun c => { content := c, meta := d.meta }

theorem chunksOf_flatten {α : Type _} (L : Nat) : ∀ xs : List α, (chunksOf L xs).flatten = xs
  | [] => by simp [chunksOf]
  | x :: xs => by
    simp only [chunksOf, List.flatten_cons, List.cons_append]
    rw [chunksOf_flatten L (xs.drop (L - 1)), List.take_append_drop]
termination_by xs => xs.length
decreasing_by simp [List.length_drop]; omega

theorem chunksOf_length {α : Type _} (L : Nat) (hL : 0 < L) :
    ∀ xs : List α, (chunksOf L xs).length = (xs.length + L - 1) / L
  | [] => by
    have h : (0 + L - 1) / L = 0 := Nat.div_eq_of_lt (by omega)
    simpa [chunksOf] using h.symm
  | x :: xs => by
    have ih := chunksOf_length L hL (xs.drop (L - 1))
    simp only [chunksOf, List.length_cons, ih, List.length_drop]
    rcases le_or_lt (L - 1) xs.length with h | h
    · have h1 : xs.length - (L - 1) + L - 1 = xs.length := by omega
      have h2 : xs.length + 1 + L - 1 = xs.length + L := by omega
      rw [h1, h2, Nat.add_div_right _ hL]
    · have h1 : xs.length - (L - 1) + L - 1 = L - 1 := by omega
      have h2 : xs.length + 1 + L - 1 = xs.length + L := by omega
      rw [h1, h2, Nat.add_div_right _ hL, Nat.div_eq_of_lt (by omega),
        Nat.div_eq_of_lt (by omega)]
termination_by xs => xs.length
decreasing_by simp [List.length_drop]; omega

theorem documentSplitter_map_content (L : Nat) (d : Document) :
    (documentSplitter L d).map Chunk.content = chunksOf L d.content := by
  have h : ∀ (l : List (List String)) (m : List (String × String)),
      (l.map fun c => Chunk.mk c m).map Chunk.content = l := by
    intro l m
    induction l with
    | nil => rfl
    | cons a t ih => simp [ih]
  exact h _ _

/-! ## Reranker -/

/-- The relation "a ranks at least as high as b": b's relevance score does not
exceed a's.  The relevance model is abstracted as a score function. -/
def rankRel (score : String → Chunk → Int) (query : String) (a b : Chunk) : Prop :=
  score query b ≤ score query a

instance (score : String → Chunk → Int) (query : String) :
    DecidableRel (rankRel score query) :=
  fun _ _ => Int.decLe _ _

/-- Modelled from the spec: the `CohereRanker` (spec section 4.5) — reorder the
chunks by descending relevance score to the query; the fixed relevance model is
abstracted as a deterministic score function, and ties are resolved
consistently (stable sort). -/
def cohereRanker (score : String → Chunk → Int) (query : String)
    (chunks : List Chunk) : List Chunk :=
  List.insertionSort (rankRel score query) chunks

/-! ## Prompt template (text taken from `src/day1/main.py`, whitespace normalized) -/

def tmplHeader : String :=
  "Given the information below, answer the query. Only use the provided context to generate the answer and output the used document links\nContext:\n"

def tmplLoopA : String := "\n    "

def tmplLoopB : String := "\n    URL: "

def tmplLoopC : String := "\n"

def tmplQuestion : String := "\n\nQuestion: "

def tmplAnswer : String := "\nAnswer:"

/-- One substitution item inside the template's for-loop over documents. -/
inductive LoopSub where
  | lit (s : String)
  | content
  | url
  deriving DecidableEq

/-- One top-level template item: literal text, the for-loop over documents, or
the query substitution. -/
inductive TemplatePart where
  | lit (s : String)
  | loopDocs (body : List LoopSub)
  | query
  deriving DecidableEq

/-- The template passed to `PromptBuilder` in `src/day1/main.py`, as an
abstract syntax tree: header text, a loop over documents substituting each
document's content and url metadata, then the query substitution. -/
def promptTemplate : List TemplatePart :=
  [.lit tmplHeader,
   .loopDocs [.lit tmplLoopA, .content, .lit tmplLoopB, .url, .lit tmplLoopC],
   .lit tmplQuestion, .query, .lit tmplAnswer]

def renderLoopSub (d : Chunk) : LoopSub → String
  | .lit s => s
  | .content => String.join d.content
  | .url => (d.meta.lookup "url").getD ""

def renderSubs (d : Chunk) : List LoopSub → String
  | [] => ""
  | s :: rest => renderLoopSub d s ++ renderSubs d rest

def renderLoop (body : List LoopSub) : List Chunk → String
  | [] => ""
  | d :: ds => renderSubs d body ++ renderLoop body ds

def renderPart (docs : List Chunk) (q : String) : TemplatePart → String
  | .lit s => s
  | .loopDocs body => renderLoop body docs
  | .query => q

def renderParts (docs : List Chunk) (q : String) : List TemplatePart → String
  | [] => ""
  | p :: ps => renderPart docs q p ++ renderParts docs q ps

/-- Modelled from the spec: the `PromptBuilder` (spec section 4.6) — render the
template by substitution over the ranked chunks and the query.  A pure
function of its inputs. -/
def promptBuilder (docs : List Chunk) (q : String) : String :=
  renderParts docs q promptTemplate

/-- Number of substitution points in a loop body (non-literal items). -/
def loopSubPoints : List LoopSub → Nat
  | [] => 0
  | .lit _ :: rest => loopSubPoints rest
  | .content :: rest => 1 + loopSubPoints rest
  | .url :: rest => 1 + loopSubPoints rest

/-- Number of substitution points of a template (non-literal items, counting
the loop's own substitution points). -/
def substPoints : List TemplatePart → Nat
  | [] => 0
  | .lit _ :: ps => substPoints ps
  | .loopDocs body :: ps => loopSubPoints body + substPoints ps
  | .query :: ps => 1 + substPoints ps

/-- The text the template's loop contributes for one chunk: its content and
its url metadata, wrapped in the loop's literal text. -/
def chunkSection (d : Chunk) : String :=
  tmplLoopA ++ (String.join d.content ++ (tmplLoopB ++
    (((d.meta.lookup "url").getD "") ++ tmplLoopC)))

/-- Concatenation of the per-chunk sections, in chunk order. -/
def sectionsConcat : List Chunk → String
  | [] => ""
  | d :: ds => chunkSection d ++ sectionsConcat ds

theorem renderLoop_eq_sections (docs : List Chunk) :
    renderLoop [.lit tmplLoopA, .content, .lit tmplLoopB, .url, .lit tmplLoopC] docs
      = sectionsConcat docs := by
  induction docs with
  | nil => rfl
  | cons d ds ih =>
    simp [renderLoop, renderSubs, renderLoopSub, sectionsConcat, chunkSection, ih,
      String.append_assoc]

/-! ## Pipeline composition (wiring taken from `src/day1/main.py`) -/

/-- The component names added to the pipeline, in declaration order
(`pipeline.add_component` calls in `src/day1/main.py`). -/
def pipelineNodes : List String :=
  ["fetcher", "converter", "splitter", "reranker", "prompt_builder", "generator"]

/-- The edges declared by the `pipeline.connect` calls in `src/day1/main.py`. -/
def pipelineConnections : List (String × String) :=
  [("fetcher", "converter"), ("converter", "splitter"), ("splitter", "reranker"),
   ("reranker", "prompt_builder"), ("prompt_builder", "generator")]

/-- Modelled from the spec: the `LinkContentFetcher` (spec section 4.2) —
retrieve raw content per URL; a per-URL failure is recorded by dropping that
URL, not by aborting the run.  The network is abstracted as a partial function
from URL to raw content. -/
def linkContentFetcher (fetch : String → Option String) (urls : List String) :
    List (String × String) :=
  urls.filterMap fun u => (fetch u).map fun raw => (u, raw)

/-- Modelled from the spec: the `HTMLToDocument` converter (spec section 4.3) —
produce a Document, or nothing if the content is unparsable, preserving the
source URL as the `url` metadata.  HTML-to-sentence conversion is abstracted
as a partial function from raw content to a sentence list. -/
def htmlToDocument (convert : String → Option (List String))
    (resources : List (String × String)) : List Document :=
  resources.filterMap fun r =>
    (convert r.2).map fun sents => { content := sents, meta := [("url", r.1)] }

/-- Split every document, concatenating the chunks in document order. -/
def splitDocuments (L : Nat) (docs : List Document) : List Chunk :=
  (docs.map (documentSplitter L)).flatten

/-- Everything the pipeline run produces, stage by stage. -/
structure RunResult where
  documents : List Document
  chunks : List Chunk
  ranked : List Chunk
  prompt : String
  replies : List String

/-- Modelled from the spec: `pipeline.run` (spec sections 2 and 4.1) — the
strictly sequential five-stage chain: fetch, convert, split (length
`splitLength`), rerank against the query, render the prompt, generate.  The
external capabilities are abstracted as the function parameters. -/
def pipelineRun (fetch : String → Option String)
    (convert : String → Option (List String)) (score : String → Chunk → Int)
    (generate : String → List String) (urls : List String) (query : String) :
    RunResult :=
  let documents := htmlToDocument convert (linkContentFetcher fetch urls)
  let chunks := splitDocuments splitLength documents
  let ranked := cohereRanker score query chunks
  let prompt := promptBuilder ranked query
  { documents := documents, chunks := chunks, ranked := ranked,
    prompt := prompt, replies := generate prompt }

/-! ## The script (constants and control flow from `src/day1/main.py`) -/

/-- Environment variable holding the reranking credential
(`os.environ["COHERE_API_KEY"]`). -/
def cohereKeyVar : String := "COHERE_API_KEY"

/-- Environment variable holding the generation credential
(`Secret.from_env_var("GROQ_API_KEY")`). -/
def groqKeyVar : String := "GROQ_API_KEY"

/-- The generation endpoint, passed as a hardcoded literal to
`OpenAIGenerator(api_base_url=...)` in `src/day1/main.py`. -/
def generatorApiBaseUrl : String := "https://api.groq.com/openai/v1"

/-- The URL list compiled into the script. -/
def scriptUrls : List String :=
  ["https://haystack.deepset.ai/blog/extracting-metadata-filter",
   "https://haystack.deepset.ai/blog/query-expansion",
   "https://haystack.deepset.ai/blog/query-decomposition",
   "https://haystack.deepset.ai/cookbook/metadata_enrichment"]

/-- The query compiled into the script. -/
def scriptQuery : String :=
  "Which methods can I use to transform query for better retrieval?"

/-- An observable side effect of the script: reading an environment variable
or making a network call. -/
inductive Event where
  | envRead (name : String)
  | networkCall (target : String)
  deriving DecidableEq

def Event.isNetworkCall : Event → Bool
  | .envRead _ => false
  | .networkCall _ => true

def Event.envName : Event → Option String
  | .envRead n => some n
  | .networkCall _ => none

/-- The script's final step, `result["generator"]["replies"][0]`: Python list
indexing, which raises `IndexError` on an empty list. -/
def scriptOutput (replies : List String) : Except String String :=
  match replies with
  | [] => .error "IndexError: list index out of range"
  | r :: _ => .ok r

/-- Modelled from the spec: the whole script body of `src/day1/main.py`.
Component construction comes first, resolving the reranking credential (direct
`os.environ` access) and then the generation credential (resolved when the
generator component is constructed); a missing credential is fatal before any
pipeline work (spec sections 6 and 7d).  Only then does `pipeline.run` perform
network I/O: one fetch per URL and one generation call to the hardcoded
endpoint.  The result pairs the event trace with the printed outcome. -/
def runScript (env : String → Option String) (fetch : String → Option String)
    (convert : String → Option (List String)) (score : String → Chunk → Int)
    (generate : String → List String) (urls : List String) (query : String) :
    List Event × Except String String :=
  match env cohereKeyVar with
  | none => ([Event.envRead cohereKeyVar], .error "KeyError: COHERE_API_KEY")
  | some _ =>
    match env groqKeyVar with
    | none =>
      ([Event.envRead cohereKeyVar, Event.envRead groqKeyVar],
       .error "ValueError: GROQ_API_KEY is not set")
    | some _ =>
      let res := pipelineRun fetch convert score generate urls query
      ([Event.envRead cohereKeyVar, Event.envRead groqKeyVar]
         ++ (urls.map Event.networkCall ++ [Event.networkCall generatorApiBaseUrl]),
       scriptOutput res.replies)

/-- A fully populated environment, used to observe the script's configuration
reads. -/
def fullEnv : String → Option String := fun _ => some "key"

/-- The environment variables the script reads, in order, extracted from the
event trace of a run in which every variable is set. -/
def scriptEnvReads : List String :=
  ((runScript fullEnv (fun _ => none) (fun _ => none) (fun _ _ => 0)
      (fun _ => ["reply"]) scriptUrls scriptQuery).1).filterMap Event.envName

/-! ## Claims -/

/-- Claim C1: for every Document of S sentences split with split length
L = 10, the splitter produces exactly ceil(S / L) Chunks (in Nat arithmetic,
(S + L - 1) / L), and concatenating the Chunks' contents in order reconstructs
the original sentence sequence of the Document. -/
theorem splitter_chunk_count_and_reconstruction (d : Document) :
    splitLength = 10 ∧
    (documentSplitter splitLength d).length
      = (d.content.length + splitLength - 1) / splitLength ∧
    ((documentSplitter splitLength d).map Chunk.content).flatten = d.content := by
  refine ⟨rfl, ?_, ?_⟩
  · simpa [documentSplitter] using
      chunksOf_length splitLength (by decide) d.content
  · rw [documentSplitter_map_content, chunksOf_flatten]

/-- Claim C2: every Chunk the splitter produces from a Document carries the
parent Document's metadata unchanged; in particular its `url` metadata equals
the parent's `url` metadata. -/
theorem splitter_preserves_metadata (d : Document) (c : Chunk)
    (h : c ∈ documentSplitter splitLength d) :
    c.meta = d.meta ∧ c.meta.lookup "url" = d.meta.lookup "url" := by
  rcases List.mem_map.mp h with ⟨s, _, rfl⟩
  exact ⟨rfl, rfl⟩

/-- Witness for C2 at a concrete one-sentence document. -/
theorem splitter_preserves_metadata_witness :
    (Chunk.mk ["a"] [("url", "u")]).meta = (Document.mk ["a"] [("url", "u")]).meta ∧
    (Chunk.mk ["a"] [("url", "u")]).meta.lookup "url"
      = (Document.mk ["a"] [("url", "u")]).meta.lookup "url" :=
  splitter_preserves_metadata (Document.mk ["a"] [("url", "u")])
    (Chunk.mk ["a"] [("url", "u")])
    (by simp [documentSplitter, splitLength, chunksOf])

/-- Claim C3: for every score model, query and input chunk list, the
reranker's output is a permutation of the input (no chunks added or dropped)
and is sorted by non-increasing relevance score; the ordering is total and,
being a pure function of the model and the input, deterministic. -/
theorem reranker_perm_and_sorted (score : String → Chunk → Int) (query : String)
    (chunks : List Chunk) :
    (cohereRanker score query chunks).Perm chunks ∧
    (cohereRanker score query chunks).Sorted
      (fun a b => score query b ≤ score query a) := by
  constructor
  · exact List.perm_insertionSort _ _
  · letI : IsTotal Chunk (rankRel score query) :=
      ⟨fun a b => le_total (score query b) (score query a)⟩
    letI : IsTrans Chunk (rankRel score query) :=
      ⟨fun _ _ _ hab hbc => le_trans hbc hab⟩
    exact List.sorted_insertionSort (rankRel score query) chunks

/-- Claim C4: a run started with an empty URL list produces zero Documents and
zero Chunks, and the generation stage receives an empty context: the rendered
prompt is just the template's literal text around the query, with no chunk
content and no chunk URLs. -/
theorem empty_urls_empty_context (fetch : String → Option String)
    (convert : String → Option (List String)) (score : String → Chunk → Int)
    (generate : String → List String) (query : String) :
    (pipelineRun fetch convert score generate [] query).documents = [] ∧
    (pipelineRun fetch convert score generate [] query).chunks = [] ∧
    (pipelineRun fetch convert score generate [] query).prompt
      = tmplHeader ++ (tmplQuestion ++ (query ++ tmplAnswer)) := by
  refine ⟨rfl, rfl, ?_⟩
  simp [pipelineRun, promptBuilder, promptTemplate, renderParts, renderPart,
    renderLoop, cohereRanker, List.insertionSort, splitDocuments, htmlToDocument,
    linkContentFetcher, String.append_assoc]

/-- Claim C5: if either required credential environment variable (the
reranking credential or the generation credential) is missing, the script
fails with an error before any network call: its event trace contains no
network call at all. -/
theorem missing_credential_fails_before_network (env : String → Option String)
    (fetch : String → Option String) (convert : String → Option (List String))
    (score : String → Chunk → Int) (generate : String → List String)
    (urls : List String) (query : String)
    (h : env cohereKeyVar = none ∨ env groqKeyVar = none) :
    (∃ msg, (runScript env fetch convert score generate urls query).2 = .error msg) ∧
    (runScript env fetch convert score generate urls query).1.filter
      Event.isNetworkCall = [] := by
  rcases h with h | h
  · refine ⟨⟨"KeyError: COHERE_API_KEY", ?_⟩, ?_⟩ <;>
      simp [runScript, h, Event.isNetworkCall]
  · cases hc : env cohereKeyVar with
    | none =>
      refine ⟨⟨"KeyError: COHERE_API_KEY", ?_⟩, ?_⟩ <;>
        simp [runScript, hc, Event.isNetworkCall]
    | some k =>
      refine ⟨⟨"ValueError: GROQ_API_KEY is not set", ?_⟩, ?_⟩ <;>
        simp [runScript, hc, h, Event.isNetworkCall]

/-- Witness for C5: an empty environment, arbitrary capabilities. -/
theorem missing_credential_fails_before_network_witness :
    (∃ msg, (runScript (fun _ => none) (fun _ => none) (fun _ => none)
      (fun _ _ => 0) (fun _ => []) [] "q").2 = .error msg) ∧
    (runScript (fun _ => none) (fun _ => none) (fun _ => none)
      (fun _ _ => 0) (fun _ => []) [] "q").1.filter Event.isNetworkCall = [] :=
  missing_credential_fails_before_network _ _ _ _ _ _ _ (Or.inl rfl)

/-- Counterexample to claim C6: the script reads exactly two configuration
values from environment variables — the two credentials — not three: the event
trace of a fully-configured run contains exactly two environment reads, so no
base endpoint URL is read from the environment. -/
theorem env_reads_are_not_three :
    scriptEnvReads = [cohereKeyVar, groqKeyVar] ∧ ¬ scriptEnvReads.length = 3 := by
  have h : scriptEnvReads = [cohereKeyVar, groqKeyVar] := rfl
  refine ⟨h, ?_⟩
  rw [h]
  decide

/-- Claim C6 as amended: at process start the script reads exactly two
configuration values from environment variables, one credential for the
reranking capability and one for the generation capability; the base endpoint
URL for the generation capability is a hardcoded constant, which appears in
the network trace without any corresponding environment read. -/
theorem config_reads_two_credentials_hardcoded_endpoint :
    scriptEnvReads.length = 2 ∧
    (runScript fullEnv (fun _ => none) (fun _ => none) (fun _ _ => 0)
        (fun _ => ["reply"]) scriptUrls scriptQuery).1
      = [Event.envRead cohereKeyVar, Event.envRead groqKeyVar]
          ++ (scriptUrls.map Event.networkCall
              ++ [Event.networkCall generatorApiBaseUrl]) :=
  ⟨rfl, rfl⟩

/-- Claim C7: the pipeline's control flow is strictly linear: the declared
connections are exactly the chain edges over the six components in order, and
no component is the source or the target of two edges (no branching, fan-out
or fan-in). -/
theorem pipeline_strictly_linear :
    pipelineConnections = pipelineNodes.zip pipelineNodes.tail ∧
    pipelineNodes.Nodup ∧
    (pipelineConnections.map Prod.fst).Nodup ∧
    (pipelineConnections.map Prod.snd).Nodup := by
  refine ⟨rfl, ?_, ?_, ?_⟩ <;> decide

/-- Claim C8: the prompt assembler deterministically produces a single string
by template substitution: the template has exactly three substitution points —
each chunk's content and url inside the loop over chunks, and the query — and
rendering is the pure concatenation of the template's literal text with those
three substitutions. -/
theorem prompt_builder_three_substitution_points :
    substPoints promptTemplate = 3 ∧
    ∀ docs q, promptBuilder docs q
      = tmplHeader ++ (sectionsConcat docs ++ (tmplQuestion ++ (q ++ tmplAnswer))) := by
  constructor
  · rfl
  · intro docs q
    simp [promptBuilder, promptTemplate, renderParts, renderPart,
      renderLoop_eq_sections, String.append_assoc]

/-- Claim C9: the Answer returned by the run is the generator's first
candidate reply: when both credentials are present and the generator returns
`r :: rs`, the script's outcome is `ok r`. -/
theorem run_answer_is_first_reply (env : String → Option String)
    (fetch : String → Option String) (convert : String → Option (List String))
    (score : String → Chunk → Int) (generate : String → List String)
    (urls : List String) (query : String) (kc kg r : String) (rs : List String)
    (hc : env cohereKeyVar = some kc) (hg : env groqKeyVar = some kg)
    (hr : (pipelineRun fetch convert score generate urls query).replies = r :: rs) :
    (runScript env fetch convert score generate urls query).2 = .ok r := by
  simp [runScript, hc, hg, hr, scriptOutput]

/-- Witness for C9 at a concrete run whose generator replies `["ans"]`. -/
theorem run_answer_is_first_reply_witness :
    (runScript (fun _ => some "k") (fun _ => none) (fun _ => none)
      (fun _ _ => 0) (fun _ => ["ans"]) [] "q").2 = .ok "ans" :=
  run_answer_is_first_reply _ _ _ _ _ _ _ "k" "k" "ans" [] rfl rfl rfl

/-- Claim C10: the printed output is exactly element 0 of the generator's
`replies` list, and on an empty `replies` list the final step fails with an
indexing error rather than producing an answer. -/
theorem printed_output_is_reply_zero :
    (∀ r rs, scriptOutput (r :: rs) = .ok r) ∧
    scriptOutput [] = .error "IndexError: list index out of range" :=
  ⟨fun _ _ => rfl, rfl⟩

end AocHaystack
